import Mathlib

/-!
Verification of the application-default-credentials resolution chain and the
OAuth flow client-config dispatch of this repository.

The resolution chain (`_default`) is modelled from the specification, since
only its test suite ships in the sources; the flow client-config dispatch is
embedded from `google/oauth2/flow.py`.
-/

set_option autoImplicit false

namespace ADC

/-- Substring helper: `isPrefixChars n h` is true when the char list `n`
starts the char list `h`. -/
def isPrefixChars : List Char → List Char → Bool
  | [], _ => true
  | _ :: _, [] => false
  | a :: as, b :: bs => a == b && isPrefixChars as bs

/-- Substring helper: `isSubChars n h` is true when the char list `n`
occurs contiguously somewhere inside `h`. -/
def isSubChars (needle : List Char) : List Char → Bool
  | [] => isPrefixChars needle []
  | b :: bs => isPrefixChars needle (b :: bs) || isSubChars needle bs

/-- `mentions needle hay` is true when the string `needle` occurs as a
contiguous substring of the string `hay`. Used to state that error messages
name their cause. -/
def mentions (needle hay : String) : Bool :=
  isSubChars needle.data hay.data

/-- Modelled from the spec: the content of a credentials file after the
out-of-scope JSON-parsing collaborator has run. A file is either not valid
JSON, or a parsed mapping of string fields (the fields relevant to the
resolver are all strings: `type`, `client_id`, `project_id`, ...). -/
inductive FileData where
  | invalid : FileData
  | valid : List (String × String) → FileData
deriving DecidableEq

/-- Modelled from the spec: a resolved credential, one of the four kinds the
spec names (authorized-user, service-account, platform-identity,
metadata-service), plus the wrapper produced by the scoping collaborator.
The credential constructors are opaque factories in the spec; here they
record the parsed file fields so distinct files give distinct credentials. -/
inductive Cred where
  | authorizedUser : List (String × String) → Cred
  | serviceAccount : List (String × String) → Cred
  | appEngine : Cred
  | computeEngine : Cred
  | scoped : Cred → List String → Cred
deriving DecidableEq

/-- Modelled from the spec: required fields for an `authorized_user` file
(`client_id`, `client_secret`, `refresh_token`). -/
def authorizedUserRequiredFields : List String :=
  ["client_id", "client_secret", "refresh_token"]

/-- Modelled from the spec: required fields for a `service_account` file
(`client_email`, `private_key`, `project_id`). -/
def serviceAccountRequiredFields : List String :=
  ["client_email", "private_key", "project_id"]

/-- Error message for a file that is not valid JSON. -/
def invalidJsonMsg : String :=
  "File is not a valid json file."

/-- Error message for a file whose type field is missing or unrecognized. -/
def invalidTypeMsg : String :=
  "The file does not have a valid type of authorized_user or service_account."

/-- Error message for an authorized-user file with required fields absent. -/
def authorizedUserMissingMsg : String :=
  "Failed to load authorized user credentials: missing fields client_id, client_secret or refresh_token."

/-- Error message for a service-account file with required fields absent. -/
def serviceAccountMissingMsg : String :=
  "Failed to load service account credentials: missing fields client_email, private_key or project_id."

/-- Checks that every field in `required` is present in the parsed mapping. -/
def hasRequiredFields (required : List String) (info : List (String × String)) : Bool :=
  required.all fun k => (info.lookup k).isSome

/-- Modelled from the spec: the file-based credential loader. Given the
(already read and parsed) file content, fails with a format error if the
content is not valid JSON, if the `type` discriminator is missing or
unknown, or if the kind-specific required fields are not all present;
otherwise returns the constructed credential together with the project id
(`project_id` field for service-account files, absent for authorized-user
files). -/
def _load_credentials_from_file : FileData → Except String (Cred × Option String)
  | .invalid => .error invalidJsonMsg
  | .valid info =>
    match info.lookup "type" with
    | none => .error invalidTypeMsg
    | some t =>
      if t = "authorized_user" then
        if hasRequiredFields authorizedUserRequiredFields info then
          .ok (.authorizedUser info, none)
        else
          .error authorizedUserMissingMsg
      else if t = "service_account" then
        if hasRequiredFields serviceAccountRequiredFields info then
          .ok (.serviceAccount info, info.lookup "project_id")
        else
          .error serviceAccountMissingMsg
      else
        .error invalidTypeMsg

/-- Modelled from the spec: the process environment and the external
collaborators the resolution chain consults - environment variables, the
filesystem, the SDK path and project resolvers, the platform-identity API
and the metadata service. Each probe reads only its own fields. -/
structure Env where
  /-- The explicit-credentials-path environment variable, absent when unset. -/
  credentialsVar : Option String
  /-- The primary project-id environment variable, absent when unset. -/
  projectVar : Option String
  /-- The legacy project-id environment variable, absent when unset. -/
  legacyProjectVar : Option String
  /-- Reading and parsing the file at a path (the out-of-scope JSON reader). -/
  readFile : String → FileData
  /-- The SDK path resolver: the conventional on-disk credentials path. -/
  sdkCredentialsPath : Option String
  /-- Filesystem existence check for a path. -/
  fileExists : String → Bool
  /-- The SDK project resolver: the locally cached project id, if any. -/
  sdkProjectId : Option String
  /-- Whether the in-process platform-identity API is available. -/
  appEngineAvailable : Bool
  /-- The application id the platform exposes, absent in non-hosted runs. -/
  appEngineAppId : Option String
  /-- The reachability ping against the metadata endpoint. -/
  metadataPing : Bool
  /-- The metadata-service project-id fetch: a project id (or null), or a
  transport error. -/
  metadataProjectId : Except Unit (Option String)

/-- Modelled from the spec: the Explicit-Environment Probe. If the
designated environment variable is unset or empty, returns absent-absent;
otherwise treats its value as a path and delegates to the file-based
loader, whose format errors propagate unchanged. -/
def _get_explicit_environ_credentials (env : Env) :
    Except String (Option Cred × Option String) :=
  match env.credentialsVar with
  | none => .ok (none, none)
  | some path =>
    if path = "" then
      .ok (none, none)
    else
      match _load_credentials_from_file (env.readFile path) with
      | .error e => .error e
      | .ok (c, pid) => .ok (some c, pid)

/-- Modelled from the spec: the SDK-Config Probe. Asks the SDK path
resolver for the conventional credentials path; if the path is absent or
the file does not exist, returns absent-absent. Otherwise delegates to the
loader (format errors propagate); when the loaded credential carries no
project id, additionally asks the SDK project resolver, tolerating
absence. -/
def _get_gcloud_sdk_credentials (env : Env) :
    Except String (Option Cred × Option String) :=
  match env.sdkCredentialsPath with
  | none => .ok (none, none)
  | some path =>
    if env.fileExists path then
      match _load_credentials_from_file (env.readFile path) with
      | .error e => .error e
      | .ok (c, some pid) => .ok (some c, some pid)
      | .ok (c, none) => .ok (some c, env.sdkProjectId)
    else
      .ok (none, none)

/-- Modelled from the spec: the Platform-Identity Probe. If the in-process
identity API is unavailable, or the platform exposes no application id,
returns absent-absent; otherwise returns a platform-identity credential
with the application id as project id. The return type is a plain pair:
the probe raises nothing. -/
def _get_gae_credentials (env : Env) : Option Cred × Option String :=
  if env.appEngineAvailable then
    match env.appEngineAppId with
    | some appId => (some .appEngine, some appId)
    | none => (none, none)
  else
    (none, none)

/-- Modelled from the spec: the Metadata-Service Probe. If the reachability
ping fails, returns absent-absent. If reachable, constructs a
metadata-backed credential and attempts the project-id fetch; a transport
error there is caught and downgraded to an absent project id. The return
type is a plain pair: no exception leaves the probe. -/
def _get_gce_credentials (env : Env) : Option Cred × Option String :=
  if env.metadataPing then
    match env.metadataProjectId with
    | .ok pid => (some .computeEngine, pid)
    | .error _ => (some .computeEngine, none)
  else
    (none, none)

/-- Modelled from the spec: the scoping collaborator. Wraps a credential
with the required scopes (the capability check for unscopable kinds lives
inside this out-of-scope collaborator). -/
def with_scopes_if_required (c : Cred) (scopes : List String) : Cred :=
  .scoped c scopes

/-- An environment variable counts as an override only when set and
non-empty. -/
def nonEmptyVar : Option String → Option String
  | none => none
  | some s => if s = "" then none else some s

/-- Modelled from the spec: the explicit project-id override - the primary
project variable when set and non-empty, else the legacy variable when set
and non-empty, else absent. -/
def explicitProjectId (env : Env) : Option String :=
  match nonEmptyVar env.projectVar with
  | some p => some p
  | none => nonEmptyVar env.legacyProjectVar

/-- Exhaustion message raised when every probe returns absent-absent. -/
def _HELP_MESSAGE : String :=
  "Could not automatically determine credentials. Please set the application credentials environment variable, log in with the SDK, or run in a supported hosted environment, then re-run the application."

/-- A probe: consults the environment, returns a credential-or-absent and
project-id-or-absent pair, or a fatal format error. -/
abbrev Checker := Env → Except String (Option Cred × Option String)

/-- Modelled from the spec: the fixed probe order of the orchestrator. -/
def checkers : List Checker :=
  [_get_explicit_environ_credentials,
   _get_gcloud_sdk_credentials,
   fun env => .ok (_get_gae_credentials env),
   fun env => .ok (_get_gce_credentials env)]

/-- Runs the probes in order, stopping at the first fatal error or the
first non-absent credential. Also returns how many probes were attempted,
so that short-circuiting is observable. -/
def runCheckers (env : Env) :
    List Checker → Except String (Option (Cred × Option String)) × Nat
  | [] => (.ok none, 0)
  | f :: rest =>
    match f env with
    | .error e => (.error e, 1)
    | .ok (some c, pid) => (.ok (some (c, pid)), 1)
    | .ok (none, _) =>
      let r := runCheckers env rest
      (r.1, r.2 + 1)

/-- Modelled from the spec: the orchestrator, instrumented with the number
of probes attempted. Runs the four probes in fixed order stopping at the
first success, raises the exhaustion error when all return absent-absent,
applies the explicit project-id override, and applies the scoping
collaborator when scopes were supplied. -/
def defaultTraced (env : Env) (scopes : Option (List String)) :
    Except String (Cred × Option String) × Nat :=
  match runCheckers env checkers with
  | (.error e, n) => (.error e, n)
  | (.ok none, n) => (.error _HELP_MESSAGE, n)
  | (.ok (some (c, pid)), n) =>
    let c2 := match scopes with
      | some s => with_scopes_if_required c s
      | none => c
    let pid2 := match explicitProjectId env with
      | some p => some p
      | none => pid
    (.ok (c2, pid2), n)

/-- Modelled from the spec: the orchestrator `default()`. -/
def default (env : Env) (scopes : Option (List String)) :
    Except String (Cred × Option String) :=
  (defaultTraced env scopes).1

end ADC

namespace OAuthFlow

/-- Embedded from `google/oauth2/flow.py`: the part of a `Flow` instance
that `from_client_config` determines - the selected client type and the
sub-configuration stored under that key. The client configuration mapping
is embedded as an association list from key to sub-configuration. -/
structure Flow (V : Type) where
  client_type : String
  client_config : V
deriving DecidableEq

/-- The `ValueError` message of `Flow.from_client_config`. -/
def invalidClientConfigMsg : String :=
  "Client secrets must be for a web or installed app."

/-- Embedded from `google/oauth2/flow.py`, `Flow.from_client_config`:
selects client type `web` when the key `web` is present, else `installed`
when that key is present, else raises `ValueError`; on success stores the
sub-configuration found under the selected key. The session construction
is an out-of-scope collaborator and is not modelled. -/
def from_client_config {V : Type} (client_config : List (String × V)) :
    Except String (Flow V) :=
  match client_config.lookup "web" with
  | some v => .ok ⟨"web", v⟩
  | none =>
    match client_config.lookup "installed" with
    | some v => .ok ⟨"installed", v⟩
    | none => .error invalidClientConfigMsg

/-- A client configuration containing both keys, used in witnesses. -/
def webAndInstalledCfg : List (String × String) :=
  [("web", "web-config"), ("installed", "installed-config")]

/-- A client configuration containing only the installed key. -/
def installedOnlyCfg : List (String × String) :=
  [("installed", "installed-config")]

/-- A client configuration containing neither key. -/
def neitherCfg : List (String × String) :=
  [("other", "other-config")]

end OAuthFlow

namespace ADC

/-- A well-formed authorized-user file content, used in witnesses. -/
def auInfo : List (String × String) :=
  [("type", "authorized_user"), ("client_id", "id"),
   ("client_secret", "secret"), ("refresh_token", "token")]

/-- A well-formed service-account file content, used in witnesses. -/
def saInfo : List (String × String) :=
  [("type", "service_account"), ("client_email", "mail"),
   ("private_key", "key"), ("project_id", "proj-x")]

/-- A parsed file with an unrecognized type, used in witnesses. -/
def badTypeInfo : List (String × String) :=
  [("type", "not-a-real-type")]

/-- An authorized-user file missing its required fields. -/
def auMissingInfo : List (String × String) :=
  [("type", "authorized_user")]

/-- A service-account file missing its required fields. -/
def saMissingInfo : List (String × String) :=
  [("type", "service_account")]

/-- An environment where no credential source is applicable at all. -/
def emptyEnv : Env :=
  ⟨none, none, none, fun _ => .invalid, none, fun _ => false, none,
   false, none, false, .ok none⟩

/-- An environment where the SDK path resolver names a path but the file
does not exist, and nothing else is applicable. -/
def sdkMissingEnv : Env :=
  ⟨none, none, none, fun _ => .invalid, some "adc.json", fun _ => false,
   none, false, none, false, .ok none⟩

/-- An environment where the explicit-environment probe finds a well-formed
authorized-user file. -/
def explicitEnv : Env :=
  ⟨some "creds.json", none, none, fun _ => .valid auInfo, none,
   fun _ => false, none, false, none, false, .ok none⟩

/-- `explicitEnv` with the primary project variable set. -/
def overrideEnv : Env :=
  ⟨some "creds.json", some "explicit-env", none, fun _ => .valid auInfo,
   none, fun _ => false, none, false, none, false, .ok none⟩

/-- `explicitEnv` with only the legacy project variable set. -/
def legacyOverrideEnv : Env :=
  ⟨some "creds.json", none, some "explicit-env", fun _ => .valid auInfo,
   none, fun _ => false, none, false, none, false, .ok none⟩

/-- An environment where the metadata endpoint is reachable but the
project-id fetch raises a transport error. -/
def gceTransportErrEnv : Env :=
  ⟨none, none, none, fun _ => .invalid, none, fun _ => false, none,
   false, none, true, .error ()⟩

/-- An environment where the SDK-config probe finds a well-formed
authorized-user file and the SDK project resolver has a cached project. -/
def sdkEnv : Env :=
  ⟨none, none, none, fun _ => .valid auInfo, some "adc.json",
   fun _ => true, some "sdk-proj", false, none, false, .ok none⟩

/-- `sdkEnv` with no cached SDK project id. -/
def sdkEnvNoProject : Env :=
  ⟨none, none, none, fun _ => .valid auInfo, some "adc.json",
   fun _ => true, none, false, none, false, .ok none⟩

/-- Claim C3: for each of the four probes, when its source is not
applicable (environment variable unset, SDK credentials file missing,
platform-identity API unavailable, metadata endpoint unreachable), the
probe returns exactly the pair (absent, absent). None of the four raises:
the first two return in the `Except.ok` branch and the last two have a
pure pair type in which no exception can be signalled at all. -/
theorem probes_not_applicable_absent (env : Env) :
    (env.credentialsVar = none →
      _get_explicit_environ_credentials env = .ok (none, none)) ∧
    (∀ p, env.sdkCredentialsPath = some p → env.fileExists p = false →
      _get_gcloud_sdk_credentials env = .ok (none, none)) ∧
    (env.appEngineAvailable = false →
      _get_gae_credentials env = (none, none)) ∧
    (env.metadataPing = false →
      _get_gce_credentials env = (none, none)) := by
  refine ⟨fun h => ?_, fun p hp hex => ?_, fun h => ?_, fun h => ?_⟩
  · simp [_get_explicit_environ_credentials, h]
  · simp [_get_gcloud_sdk_credentials, hp, hex]
  · simp [_get_gae_credentials, h]
  · simp [_get_gce_credentials, h]

/-- Witness for C3: in `sdkMissingEnv` the env var is unset, the SDK file
named by the resolver does not exist, the platform API is unavailable and
the metadata ping fails, and all four probes return (absent, absent). -/
theorem probes_not_applicable_absent_witness :
    _get_explicit_environ_credentials sdkMissingEnv = .ok (none, none) ∧
    _get_gcloud_sdk_credentials sdkMissingEnv = .ok (none, none) ∧
    _get_gae_credentials sdkMissingEnv = (none, none) ∧
    _get_gce_credentials sdkMissingEnv = (none, none) := by
  have h := probes_not_applicable_absent sdkMissingEnv
  exact ⟨h.1 rfl, h.2.1 "adc.json" rfl rfl, h.2.2.1 rfl, h.2.2.2 rfl⟩

/-- Claim C7: in the metadata-service probe, when the ping succeeds but
the project-id fetch raises a transport error, the probe still returns a
metadata-kind credential with project id absent; the error is caught
inside the probe (the probe returns a plain pair, so nothing propagates
to the caller). -/
theorem gce_transport_error_caught (env : Env)
    (hping : env.metadataPing = true)
    (herr : env.metadataProjectId = .error ()) :
    _get_gce_credentials env = (some .computeEngine, none) := by
  simp [_get_gce_credentials, hping, herr]

/-- Witness for C7 at `gceTransportErrEnv`. -/
theorem gce_transport_error_caught_witness :
    _get_gce_credentials gceTransportErrEnv = (some .computeEngine, none) :=
  gce_transport_error_caught gceTransportErrEnv rfl rfl

/-- Claim C2: if every one of the four probes returns (absent, absent),
the orchestrator raises `DefaultCredentialsError` (here the `Except.error`
branch) rather than returning, and its message guides the caller to the
supported setup mechanisms: the environment variable, SDK login, and a
supported hosted environment. -/
theorem default_exhaustion (env : Env) (scopes : Option (List String))
    (h1 : _get_explicit_environ_credentials env = .ok (none, none))
    (h2 : _get_gcloud_sdk_credentials env = .ok (none, none))
    (h3 : _get_gae_credentials env = (none, none))
    (h4 : _get_gce_credentials env = (none, none)) :
    default env scopes = .error _HELP_MESSAGE ∧
    mentions "environment variable" _HELP_MESSAGE = true ∧
    mentions "SDK" _HELP_MESSAGE = true ∧
    mentions "hosted environment" _HELP_MESSAGE = true := by
  refine ⟨?_, by decide, by decide, by decide⟩
  simp [default, defaultTraced, runCheckers, checkers, h1, h2, h3, h4]

/-- Witness for C2: in `emptyEnv` every probe returns (absent, absent) and
`default` fails with the guiding message. -/
theorem default_exhaustion_witness :
    default emptyEnv none = .error _HELP_MESSAGE :=
  (default_exhaustion emptyEnv none rfl rfl rfl rfl).1

/-- Claim C1: the orchestrator attempts the probes in the fixed order
(explicit-environment, SDK-config, platform-identity, metadata-service);
as soon as a probe returns a non-absent credential, no later probe is
attempted (the trace count of `defaultTraced` equals the succeeding
probe's position) and `default` returns exactly that probe's
(credential, project id) pair - even when that project id is absent -
given no explicit project-id override and no requested scopes. -/
theorem default_probe_order (env : Env)
    (hover : explicitProjectId env = none) :
    (∀ c pid, _get_explicit_environ_credentials env = .ok (some c, pid) →
      defaultTraced env none = (.ok (c, pid), 1)) ∧
    (∀ q c pid, _get_explicit_environ_credentials env = .ok (none, q) →
      _get_gcloud_sdk_credentials env = .ok (some c, pid) →
      defaultTraced env none = (.ok (c, pid), 2)) ∧
    (∀ q r c pid, _get_explicit_environ_credentials env = .ok (none, q) →
      _get_gcloud_sdk_credentials env = .ok (none, r) →
      _get_gae_credentials env = (some c, pid) →
      defaultTraced env none = (.ok (c, pid), 3)) ∧
    (∀ q r s c pid, _get_explicit_environ_credentials env = .ok (none, q) →
      _get_gcloud_sdk_credentials env = .ok (none, r) →
      _get_gae_credentials env = (none, s) →
      _get_gce_credentials env = (some c, pid) →
      defaultTraced env none = (.ok (c, pid), 4)) := by
  refine ⟨fun c pid h1 => ?_, fun q c pid h1 h2 => ?_,
    fun q r c pid h1 h2 h3 => ?_, fun q r s c pid h1 h2 h3 h4 => ?_⟩
  · simp [defaultTraced, runCheckers, checkers, h1, hover]
  · simp [defaultTraced, runCheckers, checkers, h1, h2, hover]
  · simp [defaultTraced, runCheckers, checkers, h1, h2, h3, hover]
  · simp [defaultTraced, runCheckers, checkers, h1, h2, h3, h4, hover]

/-- Witness for C1: in `explicitEnv` the first probe finds the
authorized-user credential; only one probe is attempted and its pair is
returned unchanged. -/
theorem default_probe_order_witness :
    defaultTraced explicitEnv none = (.ok (.authorizedUser auInfo, none), 1) :=
  (default_probe_order explicitEnv rfl).1 (.authorizedUser auInfo) none rfl

/-- Claim C4: after a credential is found by a probe, a set and non-empty
primary project environment variable overrides the probe-produced project
id; when the primary variable is unset, a set and non-empty legacy
variable overrides it in the same way. The probe's project id `pid` is
arbitrary and is discarded. -/
theorem default_project_override (env : Env) (c : Cred) (pid : Option String)
    (n : Nat) (hfound : runCheckers env checkers = (.ok (some (c, pid)), n)) :
    (∀ v, env.projectVar = some v → v ≠ "" →
      default env none = .ok (c, some v)) ∧
    (env.projectVar = none → ∀ v, env.legacyProjectVar = some v → v ≠ "" →
      default env none = .ok (c, some v)) := by
  constructor
  · intro v hv hne
    simp [default, defaultTraced, hfound, explicitProjectId, nonEmptyVar, hv, hne]
  · intro hp v hv hne
    simp [default, defaultTraced, hfound, explicitProjectId, nonEmptyVar, hp, hv, hne]

/-- Witness for C4: in `overrideEnv` the primary variable overrides the
probe's absent project id, and in `legacyOverrideEnv` the legacy variable
does. -/
theorem default_project_override_witness :
    default overrideEnv none = .ok (.authorizedUser auInfo, some "explicit-env") ∧
    default legacyOverrideEnv none = .ok (.authorizedUser auInfo, some "explicit-env") :=
  ⟨(default_project_override overrideEnv (.authorizedUser auInfo) none 1
      rfl).1 "explicit-env" rfl (by decide),
   (default_project_override legacyOverrideEnv (.authorizedUser auInfo) none 1
      rfl).2 rfl "explicit-env" rfl (by decide)⟩

/-- Claim C8: when scopes are requested and a probe yields a credential,
the credential component of the returned pair equals the result of
applying the scoping collaborator `with_scopes_if_required` to that
credential and exactly that scope list, while the project-id component is
unchanged by scoping. -/
theorem default_scoped (env : Env) (scopes : List String) (c : Cred)
    (pid : Option String) (h : default env none = .ok (c, pid)) :
    default env (some scopes) = .ok (with_scopes_if_required c scopes, pid) := by
  unfold default defaultTraced at h ⊢
  rcases hx : runCheckers env checkers with ⟨r, n⟩
  rw [hx] at h
  rcases r with e | ro
  · simp at h
  · rcases ro with _ | ⟨c0, pid0⟩
    · simp at h
    · simp at h ⊢
      obtain ⟨hc, hp⟩ := h
      rw [hc, hp]
      exact ⟨rfl, rfl⟩

/-- Witness for C8: in `explicitEnv`, requesting scopes wraps the found
credential with exactly those scopes and leaves the project id alone. -/
theorem default_scoped_witness :
    default explicitEnv (some ["one", "two"]) =
      .ok (with_scopes_if_required (.authorizedUser auInfo) ["one", "two"], none) :=
  default_scoped explicitEnv ["one", "two"] (.authorizedUser auInfo) none rfl

/-- Claim C9: in the SDK-config probe, when the credentials file exists
and loads successfully but yields no project id, the probe consults the
SDK project resolver: a resolved project id is returned alongside the
credential, and when the resolver returns nothing the credential is still
returned with project id absent, in the `Except.ok` branch (no error). -/
theorem gcloud_sdk_project_fallback (env : Env) (p : String) (c : Cred)
    (hpath : env.sdkCredentialsPath = some p)
    (hexists : env.fileExists p = true)
    (hload : _load_credentials_from_file (env.readFile p) = .ok (c, none)) :
    (∀ pid, env.sdkProjectId = some pid →
      _get_gcloud_sdk_credentials env = .ok (some c, some pid)) ∧
    (env.sdkProjectId = none →
      _get_gcloud_sdk_credentials env = .ok (some c, none)) := by
  constructor
  · intro pid hpid
    simp [_get_gcloud_sdk_credentials, hpath, hexists, hload, hpid]
  · intro hpid
    simp [_get_gcloud_sdk_credentials, hpath, hexists, hload, hpid]

/-- Witness for C9: in `sdkEnv` the cached SDK project id is used, and in
`sdkEnvNoProject` the credential is returned with project id absent. -/
theorem gcloud_sdk_project_fallback_witness :
    _get_gcloud_sdk_credentials sdkEnv = .ok (some (.authorizedUser auInfo), some "sdk-proj") ∧
    _get_gcloud_sdk_credentials sdkEnvNoProject = .ok (some (.authorizedUser auInfo), none) :=
  ⟨(gcloud_sdk_project_fallback sdkEnv "adc.json" (.authorizedUser auInfo)
      rfl rfl rfl).1 "sdk-proj" rfl,
   (gcloud_sdk_project_fallback sdkEnvNoProject "adc.json" (.authorizedUser auInfo)
      rfl rfl rfl).2 rfl⟩

/-- Claim C5: the file-based loader errs exactly on malformed files, and
each message identifies the malformation. Invalid JSON yields a message
containing "not a valid json"; a missing or unrecognized type field yields
one containing "does not have a valid type"; a recognized type with
required fields absent yields one naming the kind ("authorized user" or
"service account") together with "missing fields". Conversely, a file
with a recognized type and all required fields present loads without
error. -/
theorem load_credentials_format_errors :
    (_load_credentials_from_file .invalid = .error invalidJsonMsg ∧
      mentions "not a valid json" invalidJsonMsg = true) ∧
    (∀ info, info.lookup "type" = none →
      _load_credentials_from_file (.valid info) = .error invalidTypeMsg) ∧
    (∀ info t, info.lookup "type" = some t →
      t ≠ "authorized_user" → t ≠ "service_account" →
      _load_credentials_from_file (.valid info) = .error invalidTypeMsg) ∧
    mentions "does not have a valid type" invalidTypeMsg = true ∧
    (∀ info, info.lookup "type" = some "authorized_user" →
      hasRequiredFields authorizedUserRequiredFields info = false →
      _load_credentials_from_file (.valid info) = .error authorizedUserMissingMsg) ∧
    mentions "authorized user" authorizedUserMissingMsg = true ∧
    mentions "missing fields" authorizedUserMissingMsg = true ∧
    (∀ info, info.lookup "type" = some "service_account" →
      hasRequiredFields serviceAccountRequiredFields info = false →
      _load_credentials_from_file (.valid info) = .error serviceAccountMissingMsg) ∧
    mentions "service account" serviceAccountMissingMsg = true ∧
    mentions "missing fields" serviceAccountMissingMsg = true ∧
    (∀ info, info.lookup "type" = some "authorized_user" →
      hasRequiredFields authorizedUserRequiredFields info = true →
      ∃ r, _load_credentials_from_file (.valid info) = .ok r) ∧
    (∀ info, info.lookup "type" = some "service_account" →
      hasRequiredFields serviceAccountRequiredFields info = true →
      ∃ r, _load_credentials_from_file (.valid info) = .ok r) := by
  refine ⟨⟨rfl, by decide⟩, fun info h => ?_, fun info t h hne1 hne2 => ?_,
    by decide, fun info h hf => ?_, by decide, by decide,
    fun info h hf => ?_, by decide, by decide,
    fun info h hf => ?_, fun info h hf => ?_⟩
  · simp [_load_credentials_from_file, h]
  · simp [_load_credentials_from_file, h, hne1, hne2]
  · simp [_load_credentials_from_file, h, hf]
  · simp [_load_credentials_from_file, h, hf]
  · exact ⟨(.authorizedUser info, none),
      by simp [_load_credentials_from_file, h, hf]⟩
  · exact ⟨(.serviceAccount info, info.lookup "project_id"),
      by simp [_load_credentials_from_file, h, hf]⟩

/-- Witness for C5: the loader rejects a concrete syntactically invalid
file, a concrete unknown-type file, and concrete files of each recognized
kind with the required fields missing. -/
theorem load_credentials_format_errors_witness :
    _load_credentials_from_file (.valid badTypeInfo) = .error invalidTypeMsg ∧
    _load_credentials_from_file (.valid auMissingInfo) = .error authorizedUserMissingMsg ∧
    _load_credentials_from_file (.valid saMissingInfo) = .error serviceAccountMissingMsg :=
  ⟨load_credentials_format_errors.2.2.1 badTypeInfo "not-a-real-type"
      rfl (by decide) (by decide),
   load_credentials_format_errors.2.2.2.2.1 auMissingInfo rfl rfl,
   load_credentials_format_errors.2.2.2.2.2.2.2.1 saMissingInfo rfl rfl⟩

/-- Claim C6: for every well-formed credentials file, the loader returns
the constructed credential together with the project id taken from the
file's project_id field when the type is service_account, and an always
absent project id when the type is authorized_user. -/
theorem load_credentials_project_id (info : List (String × String)) :
    (info.lookup "type" = some "authorized_user" →
      hasRequiredFields authorizedUserRequiredFields info = true →
      _load_credentials_from_file (.valid info) = .ok (.authorizedUser info, none)) ∧
    (∀ pid, info.lookup "type" = some "service_account" →
      hasRequiredFields serviceAccountRequiredFields info = true →
      info.lookup "project_id" = some pid →
      _load_credentials_from_file (.valid info) = .ok (.serviceAccount info, some pid)) := by
  constructor
  · intro h hf
    simp [_load_credentials_from_file, h, hf]
  · intro pid h hf hp
    simp [_load_credentials_from_file, h, hf, hp]

/-- Witness for C6: the concrete authorized-user file loads with an
absent project id and the concrete service-account file loads with the
project id recorded in the file. -/
theorem load_credentials_project_id_witness :
    _load_credentials_from_file (.valid auInfo) = .ok (.authorizedUser auInfo, none) ∧
    _load_credentials_from_file (.valid saInfo) = .ok (.serviceAccount saInfo, some "proj-x") :=
  ⟨(load_credentials_project_id auInfo).1 rfl rfl,
   (load_credentials_project_id saInfo).2 "proj-x" rfl rfl rfl⟩

end ADC

namespace OAuthFlow

/-- Claim C10: `Flow.from_client_config` selects client type `web`
whenever the key `web` is present - even when `installed` is also
present - selects `installed` when only that key is present, and raises
`ValueError` exactly when neither key is present; hence the error branch
is unreachable for any mapping containing `web` or `installed`. -/
theorem from_client_config_selection (cfg : List (String × String)) :
    (∀ v, cfg.lookup "web" = some v →
      from_client_config cfg = .ok ⟨"web", v⟩) ∧
    (cfg.lookup "web" = none → ∀ v, cfg.lookup "installed" = some v →
      from_client_config cfg = .ok ⟨"installed", v⟩) ∧
    ((∃ e, from_client_config cfg = .error e) ↔
      (cfg.lookup "web" = none ∧ cfg.lookup "installed" = none)) := by
  refine ⟨fun v hv => ?_, fun hw v hv => ?_, ?_, ?_⟩
  · simp [from_client_config, hv]
  · simp [from_client_config, hw, hv]
  · rintro ⟨e, he⟩
    unfold from_client_config at he
    rcases hw : cfg.lookup "web" with _ | v
    · rw [hw] at he
      rcases hi : cfg.lookup "installed" with _ | v
      · exact ⟨rfl, rfl⟩
      · rw [hi] at he
        exact absurd he (by simp)
    · rw [hw] at he
      exact absurd he (by simp)
  · rintro ⟨hw, hi⟩
    exact ⟨invalidClientConfigMsg, by simp [from_client_config, hw, hi]⟩

/-- Witness for C10: with both keys present the web type wins, with only
the installed key present the installed type is selected, and with
neither key present the error is raised. -/
theorem from_client_config_selection_witness :
    from_client_config webAndInstalledCfg = .ok ⟨"web", "web-config"⟩ ∧
    from_client_config installedOnlyCfg = .ok ⟨"installed", "installed-config"⟩ ∧
    (∃ e, from_client_config neitherCfg = .error e) :=
  ⟨(from_client_config_selection webAndInstalledCfg).1 "web-config" rfl,
   (from_client_config_selection installedOnlyCfg).2.1 rfl "installed-config" rfl,
   (from_client_config_selection neitherCfg).2.2.2 ⟨rfl, rfl⟩⟩

end OAuthFlow
